import Mathlib

/-!
Verification of the helper-function layer of the genai-skills-workshop
repository (files `03-Challenge/agent_tools.py`,
`06-Challenge/utils/agent_tools.py`, `06-Challenge/utils/agent_callbacks.py`).

The Python code is a set of stateless wrappers around two external HTTP APIs
(Google Geocoding, National Weather Service) and a generative-model service
(Vertex AI), plus "before model" callbacks for an agent framework.  We embed
it shallowly:

* JSON documents are the inductive type `JValue`; Python subscripting
  (`d[k]`, `xs[i]`), `dict.get`, and truthiness are modelled with Python's
  exception behaviour (`KeyError`, `IndexError`, `TypeError`,
  `AttributeError`).  JSON numbers are modelled as integers: the code never
  computes with them, it only passes them through.
* The external world is an oracle `Env`: a function from HTTP requests to
  outcomes and a function from generative-model calls to outcomes.  A raised
  outcome of the HTTP oracle stands for any `requests` failure
  (connection errors, `raise_for_status`, and `.json()` decode errors, which
  in the modern `requests` library are all `RequestException`s).  The
  `vertexai.init` / `GenerativeModel` / `generate_content` / `.text` sequence
  of one model call is collapsed into one oracle outcome.
* Each embedded function returns its Python result as
  `Except PyErr α` (an `.error` is an exception propagating to the caller)
  together with the trace of observable events it produced: HTTP requests
  issued, model calls issued, `print` output and `logging` output.
* Environment variables (`GOOGLE_MAP_KEY`, `GCP_PROJECT`, `GCP_REGION`) are
  fields of `Env`, modelled as set strings.
* The two copies of `get_lat_lon_from_address` and `get_weather_forecast`
  in `03-Challenge/agent_tools.py` and `06-Challenge/utils/agent_tools.py`
  are textually identical, so a single definition embeds both.  The
  `is_address_in_us` / `is_user_query_mean` pairs differ only in the model
  name (`gemini-2.0-flash` vs `gemini-2.5-flash`) and live in namespaces
  `Ch03` and `Ch06`.
* Exception reprs interpolated into f-string messages are abstracted by
  `PyErr.pyMsg`; numeric formatting in f-strings is abstracted by
  `JValue.pyStr`.
-/

/-- Python exception classes relevant to this code.  `requestException`
stands for the whole `requests.exceptions.RequestException` hierarchy. -/
inductive PyErr where
  | requestException
  | keyError
  | indexError
  | typeError
  | attributeError
  | otherError
deriving Repr, DecidableEq

/-- A crude stand-in for `str(e)` of an exception, used only inside logged
messages. -/
def PyErr.pyMsg : PyErr → String
  | .requestException => "RequestException"
  | .keyError => "KeyError"
  | .indexError => "list index out of range"
  | .typeError => "TypeError"
  | .attributeError => "AttributeError"
  | .otherError => "Exception"

/-- JSON values as returned by `response.json()`.  Numbers are abstracted to
integers: the source never does arithmetic on them. -/
inductive JValue where
  | vnull
  | vbool (b : Bool)
  | vnum (n : Int)
  | vstr (s : String)
  | varr (xs : List JValue)
  | vobj (fields : List (String × JValue))

/-- Python `d[k]` for a string key: dictionary lookup (`KeyError` when the
key is missing), `TypeError` on any non-dict value. -/
def JValue.subscriptS (j : JValue) (k : String) : Except PyErr JValue :=
  match j with
  | .vobj fields =>
      match fields.lookup k with
      | some v => .ok v
      | none => .error .keyError
  | _ => .error .typeError

/-- Python `xs[i]` for a non-negative integer index: list indexing
(`IndexError` out of range), single-character slice of a string
(`IndexError` out of range), dictionary lookup of the integer key on a dict
(always `KeyError`, since a JSON-parsed dict has only string keys),
`TypeError` on anything else. -/
def JValue.subscriptN (j : JValue) (i : Nat) : Except PyErr JValue :=
  match j with
  | .varr xs =>
      match xs.get? i with
      | some v => .ok v
      | none => .error .indexError
  | .vstr s =>
      match s.toList.get? i with
      | some c => .ok (.vstr (String.mk [c]))
      | none => .error .indexError
  | .vobj _ => .error .keyError
  | _ => .error .typeError

/-- Python `d.get(k, default)`: `AttributeError` on a non-dict receiver. -/
def JValue.getD (j : JValue) (k : String) (d : JValue) : Except PyErr JValue :=
  match j with
  | .vobj fields => .ok ((fields.lookup k).getD d)
  | _ => .error .attributeError

/-- Python truthiness of a JSON value (`None`, `False`, `0`, `""`, `[]`,
`{}` are falsy). -/
def JValue.truthy : JValue → Bool
  | .vnull => false
  | .vbool b => b
  | .vnum n => n != 0
  | .vstr s => s != ""
  | .varr xs => !xs.isEmpty
  | .vobj fields => !fields.isEmpty

/-- Python `value == "s"` for a string literal `s`: true exactly when the
value is that string. -/
def JValue.eqStr (j : JValue) (s : String) : Bool :=
  match j with
  | .vstr t => t == s
  | _ => false

/-- Abstraction of `str(value)` as used in f-string interpolation. -/
def JValue.pyStr : JValue → String
  | .vnull => "None"
  | .vbool true => "True"
  | .vbool false => "False"
  | .vnum n => toString n
  | .vstr s => s
  | .varr _ => "[...]"
  | .vobj _ => "{...}"

/-- Total lookup of a key in a JSON object; `none` on non-objects or missing
keys.  Used by the spec-side reference extractor. -/
def JValue.lookupObj (j : JValue) (k : String) : Option JValue :=
  match j with
  | .vobj fields => fields.lookup k
  | _ => none


/-- Characters Python's `str.strip()` removes (the ASCII whitespace the
queries here can contain). -/
def pySpace (c : Char) : Bool := c == ' ' || c == '\t' || c == '\n' || c == '\r'

/-- Python `s.strip()`: drop surrounding whitespace.  (Defined structurally
over the character list so that it computes inside the kernel.) -/
def pyStrip (s : String) : String :=
  String.mk (((s.toList.dropWhile pySpace).reverse.dropWhile pySpace).reverse)

/-- Python `s.lower()` (ASCII case folding suffices for the strings here). -/
def pyLower (s : String) : String := String.mk (s.toList.map Char.toLower)

/-- An HTTP request as issued through `requests.get`. -/
structure HttpReq where
  url : String
  params : List (String × String)
  headers : List (String × String)
  timeout : Option Nat
deriving Repr, DecidableEq

/-- Outcome of one `requests.get` / `raise_for_status` / `.json()` sequence:
either a raised exception or a parsed JSON body. -/
inductive HttpOutcome where
  | raise (e : PyErr)
  | ok (body : JValue)

/-- One generative-model invocation: the `vertexai.init` configuration, the
model name, and the prompt.  `generate_content` is called with no timeout
argument, so the recorded timeout of such a call is `none`. -/
structure LlmCall where
  project : String
  location : String
  model : String
  prompt : String
  timeout : Option Nat
deriving Repr, DecidableEq

/-- Observable events produced by a function: HTTP requests issued,
generative-model calls issued, `print` output, `logging` output. -/
inductive CallEvent where
  | httpGet (r : HttpReq)
  | llmGenerate (c : LlmCall)
  | consolePrint (s : String)
  | logInfo (s : String)
  | logError (s : String)
deriving Repr, DecidableEq

/-- The external world: the HTTP oracle, the generative-model oracle, and
the environment variables read at module load. -/
structure Env where
  http : HttpReq → HttpOutcome
  llm : LlmCall → Except PyErr String
  google_map_key : String
  gcp_project : String
  gcp_region : String

/-- The `requests` library only raises `RequestException`-class errors from
the modelled call sequence. -/
def httpWellBehaved (env : Env) : Prop :=
  ∀ r e, env.http r = .raise e → e = .requestException

/-- Number of HTTP requests in a trace. -/
def countHttp : List CallEvent → Nat
  | [] => 0
  | .httpGet _ :: rest => countHttp rest + 1
  | _ :: rest => countHttp rest

/-- Number of generative-model calls in a trace. -/
def countLlm : List CallEvent → Nat
  | [] => 0
  | .llmGenerate _ :: rest => countLlm rest + 1
  | _ :: rest => countLlm rest

/-- Every external call in the trace carries the timeout the source passes:
`timeout=10` on each `requests.get`, and no timeout argument on
`generate_content`. -/
def evTimeoutOk : CallEvent → Bool
  | .httpGet r => r.timeout == some 10
  | .llmGenerate c => c.timeout == none
  | _ => true

/-! ## `get_lat_lon_from_address`
(identical in `03-Challenge/agent_tools.py` and
`06-Challenge/utils/agent_tools.py`) -/

def geocodeBaseUrl : String := "https://maps.googleapis.com/maps/api/geocode/json"

/-- The geocoding request: `requests.get(base_url, params=..., timeout=10)`. -/
def geocodeReq (address api_key : String) : HttpReq :=
  { url := geocodeBaseUrl
    params := [("address", address), ("key", api_key)]
    headers := []
    timeout := some 10 }

/-- The field-extraction part of the `try` body of
`get_lat_lon_from_address`, applied to the parsed JSON `data`:

```
if data['status'] == 'OK':
    location = data['results'][0]['geometry']['location']
    return (location['lat'], location['lng'])
else:
    error_message = data.get('error_message', '')
    print(f"Geocoding API Error: {data.get('status')} - {error_message}")
    return None
```

The second component is the `print` output of the `else` branch. -/
def geoExtract (data : JValue) : Except PyErr (Option (JValue × JValue)) × List CallEvent :=
  match data.subscriptS "status" with
  | .error e => (.error e, [])
  | .ok status =>
    if status.eqStr "OK" then
      match data.subscriptS "results" with
      | .error e => (.error e, [])
      | .ok results =>
        match results.subscriptN 0 with
        | .error e => (.error e, [])
        | .ok first =>
          match first.subscriptS "geometry" with
          | .error e => (.error e, [])
          | .ok geometry =>
            match geometry.subscriptS "location" with
            | .error e => (.error e, [])
            | .ok location =>
              match location.subscriptS "lat" with
              | .error e => (.error e, [])
              | .ok lat =>
                match location.subscriptS "lng" with
                | .error e => (.error e, [])
                | .ok lng => (.ok (some (lat, lng)), [])
    else
      match data.getD "error_message" (JValue.vstr "") with
      | .error e => (.error e, [])
      | .ok err_msg =>
        match data.getD "status" JValue.vnull with
        | .error e => (.error e, [])
        | .ok st =>
          (.ok none,
            [CallEvent.consolePrint
              ("Geocoding API Error: " ++ st.pyStr ++ " - " ++ err_msg.pyStr)])

/-- The whole `try` body of `get_lat_lon_from_address`: issue the request,
then extract. -/
def geoTryBody (env : Env) (req : HttpReq) :
    Except PyErr (Option (JValue × JValue)) × List CallEvent :=
  match env.http req with
  | .raise e => (.error e, [])
  | .ok data => geoExtract data

/-- `get_lat_lon_from_address(address, api_key)`.  The two `except` clauses
catch `requests.exceptions.RequestException` and `(KeyError, IndexError)`;
any other exception propagates. -/
def get_lat_lon_from_address (env : Env) (address api_key : String) :
    Except PyErr (Option (JValue × JValue)) × List CallEvent :=
  let req := geocodeReq address api_key
  let body := geoTryBody env req
  let trace := CallEvent.httpGet req :: body.2
  match body.1 with
  | .ok v => (.ok v, trace)
  | .error .requestException =>
      (.ok none, trace ++ [CallEvent.consolePrint
        ("An error occurred with the network request: " ++ PyErr.requestException.pyMsg)])
  | .error .keyError =>
      (.ok none, trace ++ [CallEvent.consolePrint
        ("Error parsing the Geocoding API response: " ++ PyErr.keyError.pyMsg)])
  | .error .indexError =>
      (.ok none, trace ++ [CallEvent.consolePrint
        ("Error parsing the Geocoding API response: " ++ PyErr.indexError.pyMsg)])
  | .error e => (.error e, trace)

/-! ## `get_weather_forecast`
(identical in `03-Challenge/agent_tools.py` and
`06-Challenge/utils/agent_tools.py`) -/

def nwsHeaders : List (String × String) :=
  [("User-Agent", "MyWeatherApp/1.0 (contact@example.com)")]

/-- `requests.get(f"https://api.weather.gov/points/{latitude},{longitude}",
headers=headers, timeout=10)`. -/
def pointsReq (latitude longitude : JValue) : HttpReq :=
  { url := "https://api.weather.gov/points/" ++ latitude.pyStr ++ "," ++ longitude.pyStr
    params := []
    headers := nwsHeaders
    timeout := some 10 }

/-- `requests.get(forecast_url, headers=headers, timeout=10)`. -/
def forecastReq (forecast_url : JValue) : HttpReq :=
  { url := forecast_url.pyStr
    params := []
    headers := nwsHeaders
    timeout := some 10 }

/-- `points_data.get('properties', {}).get('forecast')`. -/
def getForecastUrl (points_data : JValue) : Except PyErr JValue :=
  match points_data.getD "properties" (JValue.vobj []) with
  | .error e => .error e
  | .ok props => props.getD "forecast" JValue.vnull

/-- `forecast_data.get('properties', {}).get('periods')`. -/
def getPeriods (forecast_data : JValue) : Except PyErr JValue :=
  match forecast_data.getD "properties" (JValue.vobj []) with
  | .error e => .error e
  | .ok props => props.getD "periods" JValue.vnull

/-- The `try` body of `get_weather_forecast`.  A returned `JValue.vnull` is
Python's `None` (the `return None` of the missing-forecast-URL branch, or a
missing/null `periods` value: Python callers cannot tell these apart). -/
def forecastTryBody (env : Env) (latitude longitude : JValue) :
    Except PyErr JValue × List CallEvent :=
  let req1 := pointsReq latitude longitude
  match env.http req1 with
  | .raise e => (.error e, [CallEvent.httpGet req1])
  | .ok points_data =>
    match getForecastUrl points_data with
    | .error e => (.error e, [CallEvent.httpGet req1])
    | .ok forecast_url =>
      if forecast_url.truthy then
        let req2 := forecastReq forecast_url
        match env.http req2 with
        | .raise e => (.error e, [CallEvent.httpGet req1, CallEvent.httpGet req2])
        | .ok forecast_data =>
          match getPeriods forecast_data with
          | .error e => (.error e, [CallEvent.httpGet req1, CallEvent.httpGet req2])
          | .ok periods => (.ok periods, [CallEvent.httpGet req1, CallEvent.httpGet req2])
      else
        (.ok JValue.vnull,
          [CallEvent.httpGet req1,
           CallEvent.consolePrint "Error: Could not find forecast URL in the API response."])

/-- `get_weather_forecast(latitude, longitude)`.  Its `except` clauses end
with a catch-all `except Exception`, so the function never propagates an
exception. -/
def get_weather_forecast (env : Env) (latitude longitude : JValue) :
    Except PyErr JValue × List CallEvent :=
  let body := forecastTryBody env latitude longitude
  match body.1 with
  | .ok v => (.ok v, body.2)
  | .error .requestException =>
      (.ok JValue.vnull, body.2 ++ [CallEvent.consolePrint
        ("An error occurred with the network request: " ++ PyErr.requestException.pyMsg)])
  | .error .keyError =>
      (.ok JValue.vnull, body.2 ++ [CallEvent.consolePrint
        ("Error parsing the NWS API response: " ++ PyErr.keyError.pyMsg)])
  | .error .indexError =>
      (.ok JValue.vnull, body.2 ++ [CallEvent.consolePrint
        ("Error parsing the NWS API response: " ++ PyErr.indexError.pyMsg)])
  | .error e =>
      (.ok JValue.vnull, body.2 ++ [CallEvent.consolePrint
        ("An unexpected error occurred: " ++ e.pyMsg)])

/-! ## `get_weather` (`06-Challenge/utils/agent_tools.py` only) -/

/-- Python tuple unpacking `lat, lon = value` of an `Optional` tuple:
unpacking `None` raises `TypeError`. -/
def unpack2 : Option (JValue × JValue) → Except PyErr (JValue × JValue)
  | none => .error .typeError
  | some p => .ok p

/-- `get_weather(address)`: geocode with the module-level `GOOGLE_MAP_KEY`,
unpack, forecast; a broad `except Exception` turns any exception into a
`None` return. -/
def get_weather (env : Env) (address : String) :
    Except PyErr JValue × List CallEvent :=
  let geo := get_lat_lon_from_address env address env.google_map_key
  let body : Except PyErr JValue × List CallEvent :=
    match geo.1 with
    | .error e => (.error e, geo.2)
    | .ok opt =>
      match unpack2 opt with
      | .error e => (.error e, geo.2)
      | .ok (lat, lon) =>
        let fc := get_weather_forecast env lat lon
        (fc.1, geo.2 ++ fc.2)
  match body.1 with
  | .ok v => (.ok v, body.2)
  | .error e =>
      (.ok JValue.vnull, body.2 ++ [CallEvent.consolePrint
        ("Something broke. Good luck fixing:\n" ++ e.pyMsg)])

/-! ## The generative-model check functions.
`Ch03` embeds `03-Challenge/agent_tools.py` (`gemini-2.0-flash`); `Ch06`
embeds `06-Challenge/utils/agent_callbacks.py` (`gemini-2.5-flash`).  The
prompt texts are identical in both files. -/

/-- The address-locale prompt. -/
def promptAddr (user_query : String) : String :=
  "Are the following addresses in the user query all located in the United States of America? Please answer with only the word \"yes\" or \"no\". User Query: \"" ++ user_query ++ "\""

/-- The content-moderation prompt. -/
def promptMean (user_query : String) : String :=
  "Could the user query be construed as malicious or mean? Please answer with only the word \"yes\" or \"no\". User Query: \"" ++ user_query ++ "\""

namespace Ch03

/-- The model call made by `is_address_in_us` in `03-Challenge`. -/
def addrCall (project_id location user_query : String) : LlmCall :=
  { project := project_id, location := location, model := "gemini-2.0-flash"
    prompt := promptAddr user_query, timeout := none }

/-- The model call made by `is_user_query_mean` in `03-Challenge`. -/
def meanCall (project_id location user_query : String) : LlmCall :=
  { project := project_id, location := location, model := "gemini-2.0-flash"
    prompt := promptMean user_query, timeout := none }

/-- `is_address_in_us(project_id, location, user_query)` of `03-Challenge`:
returns `response.text.strip().lower() == 'yes'`; the catch-all `except`
prints and falls through to `return False`. -/
def is_address_in_us (env : Env) (project_id location user_query : String) :
    Bool × List CallEvent :=
  let call := addrCall project_id location user_query
  match env.llm call with
  | .ok text => (pyLower (pyStrip text) == "yes", [CallEvent.llmGenerate call])
  | .error e =>
      (false, [CallEvent.llmGenerate call, CallEvent.consolePrint
        ("An error occurred while checking address location: " ++ e.pyMsg)])

/-- `is_user_query_mean(project_id, location, user_query)` of `03-Challenge`. -/
def is_user_query_mean (env : Env) (project_id location user_query : String) :
    Bool × List CallEvent :=
  let call := meanCall project_id location user_query
  match env.llm call with
  | .ok text => (pyLower (pyStrip text) == "yes", [CallEvent.llmGenerate call])
  | .error e =>
      (false, [CallEvent.llmGenerate call, CallEvent.consolePrint
        ("An error occurred during query safety check: " ++ e.pyMsg)])

end Ch03

namespace Ch06

/-- The model call made by `is_address_in_us` in
`06-Challenge/utils/agent_callbacks.py`. -/
def addrCall (project_id location user_query : String) : LlmCall :=
  { project := project_id, location := location, model := "gemini-2.5-flash"
    prompt := promptAddr user_query, timeout := none }

/-- The model call made by `is_user_query_mean` in
`06-Challenge/utils/agent_callbacks.py`. -/
def meanCall (project_id location user_query : String) : LlmCall :=
  { project := project_id, location := location, model := "gemini-2.5-flash"
    prompt := promptMean user_query, timeout := none }

/-- `is_address_in_us(project_id, location, user_query)` of
`06-Challenge/utils/agent_callbacks.py`. -/
def is_address_in_us (env : Env) (project_id location user_query : String) :
    Bool × List CallEvent :=
  let call := addrCall project_id location user_query
  match env.llm call with
  | .ok text => (pyLower (pyStrip text) == "yes", [CallEvent.llmGenerate call])
  | .error e =>
      (false, [CallEvent.llmGenerate call, CallEvent.consolePrint
        ("An error occurred while checking address location: " ++ e.pyMsg)])

/-- `is_user_query_mean(project_id, location, user_query)` of
`06-Challenge/utils/agent_callbacks.py`. -/
def is_user_query_mean (env : Env) (project_id location user_query : String) :
    Bool × List CallEvent :=
  let call := meanCall project_id location user_query
  match env.llm call with
  | .ok text => (pyLower (pyStrip text) == "yes", [CallEvent.llmGenerate call])
  | .error e =>
      (false, [CallEvent.llmGenerate call, CallEvent.consolePrint
        ("An error occurred during query safety check: " ++ e.pyMsg)])

end Ch06

/-! ## The agent-framework data model and callbacks
(`06-Challenge/utils/agent_callbacks.py`) -/

/-- One part of a content element; `text` is optional. -/
structure MsgPart where
  text : Option String
deriving Repr, DecidableEq

/-- One content element of an LLM request: an optional role and an optional
list of parts. -/
structure Content where
  role : Option String
  parts : Option (List MsgPart)
deriving Repr, DecidableEq

/-- The request object handed to a before-model callback. -/
structure LlmRequest where
  contents : List Content
deriving Repr, DecidableEq

/-- The response object a before-model callback may return to short-circuit
the model call. -/
structure LlmResponse where
  content : Option Content
deriving Repr, DecidableEq

/-- The callback context; only `agent_name` is used (in log lines). -/
structure CallbackContext where
  agent_name : String
deriving Repr, DecidableEq

/-- Python truthiness of the optional parts list (`None` and `[]` falsy). -/
def partsTruthy : Option (List MsgPart) → Bool
  | none => false
  | some ps => !ps.isEmpty

/-- The pre-canned response for a query with non-US addresses.  The source
builds it from the dict
`{"role": "model", "parts": [{"text": "Message contains non-US addresses, please only query for US addresses."}]}`
(two adjacent string literals concatenated). -/
def nonUsLlmResponse : LlmResponse :=
  { content := some
      { role := some "model"
        parts := some [{ text := some "Message contains non-US addresses, please only query for US addresses." }] } }

/-- The pre-canned response for a mean query:
`{"role": "model", "parts": [{"text": "Be nice."}]}`. -/
def beNiceLlmResponse : LlmResponse :=
  { content := some
      { role := some "model", parts := some [{ text := some "Be nice." }] } }

/-- `user_prompt_log_callback(callback_context, llm_request)`: logs the
latest user prompt when present, always returns `None`. -/
def user_prompt_log_callback (ctx : CallbackContext) (req : LlmRequest) :
    Option LlmResponse × List CallEvent :=
  match req.contents.getLast? with
  | none => (none, [])
  | some last =>
    if last.role = some "user" then
      match last.parts with
      | some (p :: _) =>
        match p.text with
        | some t =>
          if t ≠ "" then
            (none, [CallEvent.logInfo ("[" ++ ctx.agent_name ++ "] USER >> " ++ pyStrip t)])
          else (none, [])
        | none => (none, [])
      | _ => (none, [])
    else (none, [])

/-- `model_response_log_callback(callback_context, llm_response)`: logs the
model response when present; the function body has no `return`, so it
returns `None`. -/
def model_response_log_callback (ctx : CallbackContext) (resp : LlmResponse) :
    Option LlmResponse × List CallEvent :=
  match resp.content with
  | none => (none, [])
  | some c =>
    if partsTruthy c.parts then
      match c.parts with
      | some (p :: _) =>
        match p.text with
        | some t =>
          if t ≠ "" then
            (none, [CallEvent.logInfo ("[" ++ ctx.agent_name ++ "] MODEL >> " ++ pyStrip t)])
          else (none, [])
        | none => (none, [])
      | _ => (none, [])
    else (none, [])

/-- `user_query_check_callback(callback_context, llm_request)`:

```
try:
    last = llm_request.contents[-1]          # IndexError when empty
    if last.role == "user" and last.parts and last.parts[0].text:
        user_text = last.parts[0].text.strip()
        if not is_address_in_us(GCP_PROJECT, GCP_REGION, user_text):
            return <non-US canned response>
        if is_user_query_mean(GCP_PROJECT, GCP_REGION, user_text):
            return <"Be nice." canned response>
except Exception as e:
    logger.error(f"Woops:\n{e}")
return None
```

The only exception that can arise in the body is the `IndexError` of
`contents[-1]` on an empty list (the `is_*` checks never raise). -/
def user_query_check_callback (env : Env) (ctx : CallbackContext) (req : LlmRequest) :
    Option LlmResponse × List CallEvent :=
  match req.contents.getLast? with
  | none => (none, [CallEvent.logError ("Woops:\n" ++ PyErr.indexError.pyMsg)])
  | some last =>
    if last.role = some "user" then
      match last.parts with
      | some (p :: _) =>
        match p.text with
        | some t =>
          if t ≠ "" then
            let user_text := pyStrip t
            let addr := Ch06.is_address_in_us env env.gcp_project env.gcp_region user_text
            if !addr.1 then
              (some nonUsLlmResponse, addr.2)
            else
              let mean := Ch06.is_user_query_mean env env.gcp_project env.gcp_region user_text
              if mean.1 then
                (some beNiceLlmResponse, addr.2 ++ mean.2)
              else (none, addr.2 ++ mean.2)
          else (none, [])
        | none => (none, [])
      | _ => (none, [])
    else (none, [])

/-- `chained_before_callback(callback_context, llm_request)`: run the
moderation check; on a non-`None` result return it at once, otherwise run
the logging callback and return `None`. -/
def chained_before_callback (env : Env) (ctx : CallbackContext) (req : LlmRequest) :
    Option LlmResponse × List CallEvent :=
  let moderation := user_query_check_callback env ctx req
  match moderation.1 with
  | some r => (some r, moderation.2)
  | none =>
    let lg := user_prompt_log_callback ctx req
    (none, moderation.2 ++ lg.2)

/-! ## Spec-side reference extractor (for the geocoding result claim) -/

/-- Reference reading of the spec sentence for the geocoding result: the
pair `(lat, lng)` of the `location` of the first element of `results` when
the response has status `OK`; `none` otherwise.  Written over total
lookups, independently of the source's control flow. -/
def specGeoResult (data : JValue) : Option (JValue × JValue) :=
  match data.lookupObj "status" with
  | some st =>
    if st.eqStr "OK" then
      match data.lookupObj "results" with
      | some (JValue.varr (first :: _)) =>
        match first.lookupObj "geometry" with
        | some geometry =>
          match geometry.lookupObj "location" with
          | some location =>
            match location.lookupObj "lat", location.lookupObj "lng" with
            | some la, some ln => some (la, ln)
            | _, _ => none
          | none => none
        | none => none
      | _ => none
    else none
  | none => none

/-! ## Concrete environments and requests used by witnesses and
counterexamples -/

set_option maxRecDepth 100000

/-- An environment whose geocoding endpoint answers with a JSON string body
(valid JSON, but not an object). -/
def envStrGeo : Env :=
  { http := fun _ => .ok (JValue.vstr "oops")
    llm := fun _ => .error .otherError
    google_map_key := "K", gcp_project := "P", gcp_region := "R" }

/-- An environment whose geocoding endpoint answers with a JSON array body. -/
def envListGeo : Env :=
  { http := fun _ => .ok (JValue.varr [])
    llm := fun _ => .error .otherError
    google_map_key := "K", gcp_project := "P", gcp_region := "R" }

/-- An environment in which every HTTP request fails with a network error
and the model always answers "no". -/
def envNoUS : Env :=
  { http := fun _ => .raise .requestException
    llm := fun _ => .ok "no"
    google_map_key := "K", gcp_project := "P", gcp_region := "R" }

/-- An environment in which the model always answers "yes". -/
def envYes : Env :=
  { http := fun _ => .raise .requestException
    llm := fun _ => .ok "yes"
    google_map_key := "K", gcp_project := "P", gcp_region := "R" }

/-- A successful geocoding response body. -/
def goodGeoBody : JValue :=
  JValue.vobj [("status", JValue.vstr "OK"),
    ("results", JValue.varr [JValue.vobj [("geometry",
      JValue.vobj [("location",
        JValue.vobj [("lat", JValue.vnum 38), ("lng", JValue.vnum (-77))])])]])]

/-- A successful NWS points response body with a forecast URL. -/
def pointsBody : JValue :=
  JValue.vobj [("properties", JValue.vobj [("forecast",
    JValue.vstr "https://api.weather.gov/gridpoints/TOP/32,81/forecast")])]

/-- A successful NWS forecast response body. -/
def forecastBody : JValue :=
  JValue.vobj [("properties", JValue.vobj [("periods", JValue.varr [])])]

/-- An environment in which geocoding, the points request and the forecast
request all succeed. -/
def envWeather : Env :=
  { http := fun r =>
      if r.url = geocodeBaseUrl then .ok goodGeoBody
      else if r.url = "https://api.weather.gov/points/38,-77" then .ok pointsBody
      else .ok forecastBody
    llm := fun _ => .error .otherError
    google_map_key := "K", gcp_project := "P", gcp_region := "R" }

/-- An environment whose geocoding endpoint reports a non-OK status and
whose points endpoint answers with an empty JSON object. -/
def envZeroResults : Env :=
  { http := fun r =>
      if r.url = geocodeBaseUrl then .ok (JValue.vobj [("status", JValue.vstr "ZERO_RESULTS")])
      else .ok (JValue.vobj [])
    llm := fun _ => .ok "yes"
    google_map_key := "K", gcp_project := "P", gcp_region := "R" }

/-- A request whose single content element is a user message with the given
text. -/
def reqUser (t : String) : LlmRequest :=
  { contents := [{ role := some "user", parts := some [{ text := some t }] }] }

/-- A request whose last content element is a model message. -/
def reqModelLast : LlmRequest :=
  { contents := [{ role := some "model", parts := some [{ text := some "hello" }] }] }

/-- The empty request. -/
def reqEmpty : LlmRequest := { contents := [] }

/-! ## Helper lemmas -/

theorem countHttp_append (a b : List CallEvent) :
    countHttp (a ++ b) = countHttp a + countHttp b := by
  induction a with
  | nil => simp [countHttp]
  | cons e rest ih => cases e <;> simp [countHttp, ih] <;> omega

theorem countLlm_append (a b : List CallEvent) :
    countLlm (a ++ b) = countLlm a + countLlm b := by
  induction a with
  | nil => simp [countLlm]
  | cons e rest ih => cases e <;> simp [countLlm, ih] <;> omega

theorem geoExtract_trace (data : JValue) :
    (geoExtract data).2 = [] ∨ ∃ s, (geoExtract data).2 = [CallEvent.consolePrint s] := by
  unfold geoExtract
  repeat' split
  all_goals simp

theorem subsS_split (j : JValue) (k : String) :
    (∃ fs, j = JValue.vobj fs) ∨ j.subscriptS k = .error .typeError := by
  cases j <;> simp [JValue.subscriptS]

theorem subsN0_split (j : JValue) :
    (∃ first rest, j = JValue.varr (first :: rest)) ∨
    j.subscriptN 0 = .error .indexError ∨
    (∃ c, j.subscriptN 0 = .ok (JValue.vstr c) ∧ ∀ first rest, j ≠ JValue.varr (first :: rest)) ∨
    (∃ fs, j = JValue.vobj fs) ∨
    j.subscriptN 0 = .error .typeError := by
  cases j with
  | varr xs => cases xs <;> simp [JValue.subscriptN]
  | vstr s =>
    cases s with
    | mk l => cases l <;> simp [JValue.subscriptN]
  | vobj fs => simp
  | _ => simp [JValue.subscriptN]

theorem geoExtract_cases (data : JValue) :
    (geoExtract data).1 = .ok (specGeoResult data) ∨
    (((geoExtract data).1 = .error .keyError ∨ (geoExtract data).1 = .error .indexError)
       ∧ specGeoResult data = none) ∨
    (geoExtract data).1 = .error .typeError := by
  rcases subsS_split data "status" with ⟨fs, rfl⟩ | hT
  · cases hs : List.lookup "status" fs with
    | none =>
      right; left
      exact ⟨Or.inl (by simp [geoExtract, JValue.subscriptS, hs]),
             by simp [specGeoResult, JValue.lookupObj, hs]⟩
    | some status =>
      have hsS : (JValue.vobj fs).subscriptS "status" = .ok status := by
        simp [JValue.subscriptS, hs]
      by_cases hOK : status.eqStr "OK" = true
      · cases hr : List.lookup "results" fs with
        | none =>
          right; left
          exact ⟨Or.inl (by simp [geoExtract, JValue.subscriptS, hs, hOK, hr]),
                 by simp [specGeoResult, JValue.lookupObj, hs, hOK, hr]⟩
        | some results =>
          have hrS : (JValue.vobj fs).subscriptS "results" = .ok results := by
            simp [JValue.subscriptS, hr]
          rcases subsN0_split results with ⟨first, rest, rfl⟩ | hIdx | ⟨c, hOkc, hNe⟩ | ⟨fs2, rfl⟩ | hTn
          · have hN : (JValue.varr (first :: rest)).subscriptN 0 = .ok first := by
              simp [JValue.subscriptN]
            rcases subsS_split first "geometry" with ⟨f2, rfl⟩ | hTf
            · cases hg : List.lookup "geometry" f2 with
              | none =>
                right; left
                exact ⟨Or.inl (by simp [geoExtract, JValue.subscriptS, JValue.subscriptN, hs, hOK, hr, hg]),
                       by simp [specGeoResult, JValue.lookupObj, hs, hOK, hr, hg]⟩
              | some geometry =>
                have hgS : (JValue.vobj f2).subscriptS "geometry" = .ok geometry := by
                  simp [JValue.subscriptS, hg]
                rcases subsS_split geometry "location" with ⟨g2, rfl⟩ | hTg
                · cases hl : List.lookup "location" g2 with
                  | none =>
                    right; left
                    exact ⟨Or.inl (by simp [geoExtract, JValue.subscriptS, JValue.subscriptN, hs, hOK, hr, hg, hl]),
                           by simp [specGeoResult, JValue.lookupObj, hs, hOK, hr, hg, hl]⟩
                  | some location =>
                    have hlS : (JValue.vobj g2).subscriptS "location" = .ok location := by
                      simp [JValue.subscriptS, hl]
                    rcases subsS_split location "lat" with ⟨l2, rfl⟩ | hTl
                    · cases hla : List.lookup "lat" l2 with
                      | none =>
                        right; left
                        exact ⟨Or.inl (by simp [geoExtract, JValue.subscriptS, JValue.subscriptN, hs, hOK, hr, hg, hl, hla]),
                               by simp [specGeoResult, JValue.lookupObj, hs, hOK, hr, hg, hl, hla]⟩
                      | some lat =>
                        cases hln : List.lookup "lng" l2 with
                        | none =>
                          right; left
                          exact ⟨Or.inl (by simp [geoExtract, JValue.subscriptS, JValue.subscriptN, hs, hOK, hr, hg, hl, hla, hln]),
                                 by simp [specGeoResult, JValue.lookupObj, hs, hOK, hr, hg, hl, hla, hln]⟩
                        | some lng =>
                          left
                          simp [geoExtract, specGeoResult, JValue.subscriptS, JValue.subscriptN,
                            JValue.lookupObj, hs, hOK, hr, hg, hl, hla, hln]
                    · right; right
                      simp only [geoExtract, hsS, hOK, if_true, hrS, hN, hgS, hlS, hTl]
                · right; right
                  simp only [geoExtract, hsS, hOK, if_true, hrS, hN, hgS, hTg]
            · right; right
              simp only [geoExtract, hsS, hOK, if_true, hrS, hN, hTf]
          · right; left
            refine ⟨Or.inr (by simp only [geoExtract, hsS, hOK, if_true, hrS, hIdx]), ?_⟩
            simp only [specGeoResult, JValue.lookupObj, hs, hOK, if_true, hr]
            rcases results with _ | _ | _ | _ | xs | _ <;> try rfl
            cases xs with
            | nil => rfl
            | cons a l => simp [JValue.subscriptN] at hIdx
          · right; right
            have hcT : (JValue.vstr c).subscriptS "geometry" = .error .typeError := rfl
            simp only [geoExtract, hsS, hOK, if_true, hrS, hOkc, hcT]
          · right; left
            refine ⟨Or.inl ?_, ?_⟩
            · have hK : (JValue.vobj fs2).subscriptN 0 = .error .keyError := rfl
              simp only [geoExtract, hsS, hOK, if_true, hrS, hK]
            · simp [specGeoResult, JValue.lookupObj, hs, hOK, hr]
          · right; right
            simp only [geoExtract, hsS, hOK, if_true, hrS, hTn]
      · left
        simp [geoExtract, specGeoResult, JValue.subscriptS, JValue.getD, JValue.lookupObj, hs, hOK]
  · right; right
    simp [geoExtract, hT]

theorem geoExtract_err (data : JValue) (e : PyErr) (h : (geoExtract data).1 = .error e) :
    e = .keyError ∨ e = .indexError ∨ e = .typeError := by
  rcases geoExtract_cases data with h1 | ⟨h1 | h1, _⟩ | h1 <;> rw [h] at h1 <;> simp_all

theorem countHttp_geoExtract (data : JValue) : countHttp (geoExtract data).2 = 0 := by
  rcases geoExtract_trace data with h | ⟨s, h⟩ <;> simp [h, countHttp]

theorem countLlm_geoExtract (data : JValue) : countLlm (geoExtract data).2 = 0 := by
  rcases geoExtract_trace data with h | ⟨s, h⟩ <;> simp [h, countLlm]

theorem timeoutOk_geoExtract (data : JValue) :
    (geoExtract data).2.all evTimeoutOk = true := by
  rcases geoExtract_trace data with h | ⟨s, h⟩ <;> simp [h, evTimeoutOk]

theorem timeoutOk_geocodeReq (a k : String) :
    evTimeoutOk (CallEvent.httpGet (geocodeReq a k)) = true := rfl

theorem timeoutOk_pointsReq (la lo : JValue) :
    evTimeoutOk (CallEvent.httpGet (pointsReq la lo)) = true := rfl

theorem timeoutOk_forecastReq (u : JValue) :
    evTimeoutOk (CallEvent.httpGet (forecastReq u)) = true := rfl

theorem timeoutOk_consolePrint (s : String) :
    evTimeoutOk (CallEvent.consolePrint s) = true := rfl

theorem timeoutOk_logInfo (s : String) :
    evTimeoutOk (CallEvent.logInfo s) = true := rfl

theorem timeoutOk_logError (s : String) :
    evTimeoutOk (CallEvent.logError s) = true := rfl

theorem timeoutOk_llm03addr (p l q : String) :
    evTimeoutOk (CallEvent.llmGenerate (Ch03.addrCall p l q)) = true := rfl

theorem timeoutOk_llm03mean (p l q : String) :
    evTimeoutOk (CallEvent.llmGenerate (Ch03.meanCall p l q)) = true := rfl

theorem timeoutOk_llm06addr (p l q : String) :
    evTimeoutOk (CallEvent.llmGenerate (Ch06.addrCall p l q)) = true := rfl

theorem timeoutOk_llm06mean (p l q : String) :
    evTimeoutOk (CallEvent.llmGenerate (Ch06.meanCall p l q)) = true := rfl

theorem geo_trace_shape (env : Env) (a k : String) :
    countHttp (get_lat_lon_from_address env a k).2 = 1 ∧
    countLlm (get_lat_lon_from_address env a k).2 = 0 ∧
    (get_lat_lon_from_address env a k).2.all evTimeoutOk = true := by
  unfold get_lat_lon_from_address geoTryBody
  cases h : env.http (geocodeReq a k) with
  | raise e =>
    cases e <;>
      simp [h, countHttp, countLlm, countHttp_append, countLlm_append, List.all_append,
        timeoutOk_geocodeReq, timeoutOk_consolePrint]
  | ok data =>
    rcases h3 : (geoExtract data).1 with e | v
    · cases e <;>
        simp [h, h3, countHttp, countLlm, countHttp_append, countLlm_append, List.all_append,
          timeoutOk_geocodeReq, timeoutOk_consolePrint,
          countHttp_geoExtract, countLlm_geoExtract, timeoutOk_geoExtract]
    · simp [h, h3, countHttp, countLlm, timeoutOk_geocodeReq,
        countHttp_geoExtract, countLlm_geoExtract, timeoutOk_geoExtract]

theorem forecast_trace_shape (env : Env) (la lo : JValue) :
    countHttp (get_weather_forecast env la lo).2 ≤ 2 ∧
    countLlm (get_weather_forecast env la lo).2 = 0 ∧
    (get_weather_forecast env la lo).2.all evTimeoutOk = true := by
  unfold get_weather_forecast forecastTryBody
  cases h1 : env.http (pointsReq la lo) with
  | raise e =>
    cases e <;>
      simp [h1, countHttp, countLlm, countHttp_append, countLlm_append, List.all_append,
        timeoutOk_pointsReq, timeoutOk_consolePrint]
  | ok pd =>
    rcases h2 : getForecastUrl pd with e | u
    · cases e <;>
        simp [h1, h2, countHttp, countLlm, countHttp_append, countLlm_append, List.all_append,
          timeoutOk_pointsReq, timeoutOk_consolePrint]
    · by_cases h3 : u.truthy = true
      · cases h4 : env.http (forecastReq u) with
        | raise e =>
          cases e <;>
            simp [h1, h2, h3, h4, countHttp, countLlm, countHttp_append, countLlm_append,
              List.all_append, timeoutOk_pointsReq, timeoutOk_forecastReq, timeoutOk_consolePrint]
        | ok fd =>
          rcases h5 : getPeriods fd with e | p
          · cases e <;>
              simp [h1, h2, h3, h4, h5, countHttp, countLlm, countHttp_append, countLlm_append,
                List.all_append, timeoutOk_pointsReq, timeoutOk_forecastReq, timeoutOk_consolePrint]
          · simp [h1, h2, h3, h4, h5, countHttp, countLlm,
              timeoutOk_pointsReq, timeoutOk_forecastReq]
      · simp [h1, h2, h3, countHttp, countLlm, timeoutOk_pointsReq, timeoutOk_consolePrint]

theorem forecast_total (env : Env) (la lo : JValue) :
    ∃ v, (get_weather_forecast env la lo).1 = .ok v := by
  unfold get_weather_forecast
  rcases h : (forecastTryBody env la lo).1 with e | v
  · cases e <;> simp [h]
  · simp [h]

theorem weather_trace_shape (env : Env) (a : String) :
    countHttp (get_weather env a).2 ≤ 3 ∧
    countLlm (get_weather env a).2 = 0 ∧
    (get_weather env a).2.all evTimeoutOk = true := by
  unfold get_weather
  have hg := geo_trace_shape env a env.google_map_key
  rcases h1 : (get_lat_lon_from_address env a env.google_map_key).1 with e | opt
  · simp [h1, countHttp_append, countLlm_append, List.all_append, countHttp, countLlm,
      hg.1, hg.2.1, hg.2.2, timeoutOk_consolePrint]
  · cases opt with
    | none =>
      simp [h1, unpack2, countHttp_append, countLlm_append, List.all_append, countHttp, countLlm,
        hg.1, hg.2.1, hg.2.2, timeoutOk_consolePrint]
    | some p =>
      obtain ⟨lat, lon⟩ := p
      have hf := forecast_trace_shape env lat lon
      rcases h2 : (get_weather_forecast env lat lon).1 with e | v <;>
        simp [h1, h2, unpack2, countHttp_append, countLlm_append, List.all_append,
          countHttp, countLlm, hg.1, hg.2.1, hg.2.2, hf.2.1, hf.2.2, timeoutOk_consolePrint] <;>
        omega

theorem weather_total (env : Env) (a : String) :
    ∃ v, (get_weather env a).1 = .ok v := by
  unfold get_weather
  rcases h1 : (get_lat_lon_from_address env a env.google_map_key).1 with e | opt
  · simp [h1]
  · cases opt with
    | none => simp [h1, unpack2]
    | some p =>
      obtain ⟨lat, lon⟩ := p
      rcases h2 : (get_weather_forecast env lat lon).1 with e | v <;> simp [h1, h2, unpack2]

theorem trace03addr (env : Env) (p l q : String) :
    countHttp (Ch03.is_address_in_us env p l q).2 = 0 ∧
    countLlm (Ch03.is_address_in_us env p l q).2 = 1 ∧
    (Ch03.is_address_in_us env p l q).2.all evTimeoutOk = true := by
  unfold Ch03.is_address_in_us
  cases h : env.llm (Ch03.addrCall p l q) <;>
    simp [h, countHttp, countLlm, timeoutOk_llm03addr, timeoutOk_consolePrint]

theorem trace03mean (env : Env) (p l q : String) :
    countHttp (Ch03.is_user_query_mean env p l q).2 = 0 ∧
    countLlm (Ch03.is_user_query_mean env p l q).2 = 1 ∧
    (Ch03.is_user_query_mean env p l q).2.all evTimeoutOk = true := by
  unfold Ch03.is_user_query_mean
  cases h : env.llm (Ch03.meanCall p l q) <;>
    simp [h, countHttp, countLlm, timeoutOk_llm03mean, timeoutOk_consolePrint]

theorem trace06addr (env : Env) (p l q : String) :
    countHttp (Ch06.is_address_in_us env p l q).2 = 0 ∧
    countLlm (Ch06.is_address_in_us env p l q).2 = 1 ∧
    (Ch06.is_address_in_us env p l q).2.all evTimeoutOk = true := by
  unfold Ch06.is_address_in_us
  cases h : env.llm (Ch06.addrCall p l q) <;>
    simp [h, countHttp, countLlm, timeoutOk_llm06addr, timeoutOk_consolePrint]

theorem trace06mean (env : Env) (p l q : String) :
    countHttp (Ch06.is_user_query_mean env p l q).2 = 0 ∧
    countLlm (Ch06.is_user_query_mean env p l q).2 = 1 ∧
    (Ch06.is_user_query_mean env p l q).2.all evTimeoutOk = true := by
  unfold Ch06.is_user_query_mean
  cases h : env.llm (Ch06.meanCall p l q) <;>
    simp [h, countHttp, countLlm, timeoutOk_llm06mean, timeoutOk_consolePrint]

theorem trace_log (ctx : CallbackContext) (req : LlmRequest) :
    countHttp (user_prompt_log_callback ctx req).2 = 0 ∧
    countLlm (user_prompt_log_callback ctx req).2 = 0 ∧
    (user_prompt_log_callback ctx req).2.all evTimeoutOk = true := by
  unfold user_prompt_log_callback
  repeat' split
  all_goals simp [countHttp, countLlm, timeoutOk_logInfo]

theorem trace_uqcc (env : Env) (ctx : CallbackContext) (req : LlmRequest) :
    countHttp (user_query_check_callback env ctx req).2 = 0 ∧
    countLlm (user_query_check_callback env ctx req).2 ≤ 2 ∧
    (user_query_check_callback env ctx req).2.all evTimeoutOk = true := by
  have ha := trace06addr env env.gcp_project env.gcp_region
  have hm := trace06mean env env.gcp_project env.gcp_region
  rcases h0 : req.contents.getLast? with _ | last
  · simp [user_query_check_callback, h0, countHttp, countLlm, timeoutOk_logError]
  · by_cases h1 : last.role = some "user"
    · rcases h2 : last.parts with _ | ps
      · simp [user_query_check_callback, h0, h1, h2, countHttp, countLlm]
      · cases ps with
        | nil => simp [user_query_check_callback, h0, h1, h2, countHttp, countLlm]
        | cons p rest =>
          rcases h3 : p.text with _ | t
          · simp [user_query_check_callback, h0, h1, h2, h3, countHttp, countLlm]
          · by_cases h4 : t = ""
            · simp [user_query_check_callback, h0, h1, h2, h3, h4, countHttp, countLlm]
            · by_cases h5 :
                (Ch06.is_address_in_us env env.gcp_project env.gcp_region (pyStrip t)).1 = false
              · simp [user_query_check_callback, h0, h1, h2, h3, h4, h5,
                  (ha (pyStrip t)).1, (ha (pyStrip t)).2.1, (ha (pyStrip t)).2.2]
              · by_cases h6 :
                  (Ch06.is_user_query_mean env env.gcp_project env.gcp_region (pyStrip t)).1 = true
                all_goals
                  simp [user_query_check_callback, h0, h1, h2, h3, h4, h5, h6,
                    countHttp_append, countLlm_append, List.all_append,
                    (ha (pyStrip t)).1, (ha (pyStrip t)).2.1, (ha (pyStrip t)).2.2,
                    (hm (pyStrip t)).1, (hm (pyStrip t)).2.1, (hm (pyStrip t)).2.2]
    · simp [user_query_check_callback, h0, h1, countHttp, countLlm]

theorem trace_chained (env : Env) (ctx : CallbackContext) (req : LlmRequest) :
    countHttp (chained_before_callback env ctx req).2 = 0 ∧
    countLlm (chained_before_callback env ctx req).2 ≤ 2 ∧
    (chained_before_callback env ctx req).2.all evTimeoutOk = true := by
  unfold chained_before_callback
  have hm := trace_uqcc env ctx req
  have hl := trace_log ctx req
  rcases h : (user_query_check_callback env ctx req).1 with _ | r <;>
    simp [h, countHttp_append, countLlm_append, List.all_append,
      hm.1, hm.2.1, hm.2.2, hl.1, hl.2.1, hl.2.2]

/-! ## Claim theorems -/

/-- C1: for every request whose last content element has role "user",
non-empty parts and non-empty first-part text, `user_query_check_callback`
returns the pre-canned non-US-address response when `is_address_in_us`
returns False; otherwise the pre-canned "Be nice." response when
`is_user_query_mean` returns True; otherwise None.  The returned trace shows
that the address check runs first and the moderation check runs only when
the address check passes. -/
theorem c1_moderation_branches (env : Env) (ctx : CallbackContext) (req : LlmRequest)
    (last : Content) (p : MsgPart) (rest : List MsgPart) (t : String)
    (hlast : req.contents.getLast? = some last)
    (hrole : last.role = some "user")
    (hparts : last.parts = some (p :: rest))
    (htext : p.text = some t) (hne : t ≠ "") :
    ((Ch06.is_address_in_us env env.gcp_project env.gcp_region (pyStrip t)).1 = false →
       user_query_check_callback env ctx req =
         (some nonUsLlmResponse,
          (Ch06.is_address_in_us env env.gcp_project env.gcp_region (pyStrip t)).2)) ∧
    ((Ch06.is_address_in_us env env.gcp_project env.gcp_region (pyStrip t)).1 = true →
     (Ch06.is_user_query_mean env env.gcp_project env.gcp_region (pyStrip t)).1 = true →
       user_query_check_callback env ctx req =
         (some beNiceLlmResponse,
          (Ch06.is_address_in_us env env.gcp_project env.gcp_region (pyStrip t)).2 ++
            (Ch06.is_user_query_mean env env.gcp_project env.gcp_region (pyStrip t)).2)) ∧
    ((Ch06.is_address_in_us env env.gcp_project env.gcp_region (pyStrip t)).1 = true →
     (Ch06.is_user_query_mean env env.gcp_project env.gcp_region (pyStrip t)).1 = false →
       user_query_check_callback env ctx req =
         (none,
          (Ch06.is_address_in_us env env.gcp_project env.gcp_region (pyStrip t)).2 ++
            (Ch06.is_user_query_mean env env.gcp_project env.gcp_region (pyStrip t)).2)) := by
  refine ⟨fun h5 => ?_, fun h5 h6 => ?_, fun h5 h6 => ?_⟩
  · simp [user_query_check_callback, hlast, hrole, hparts, htext, hne, h5]
  · simp [user_query_check_callback, hlast, hrole, hparts, htext, hne, h5, h6]
  · simp [user_query_check_callback, hlast, hrole, hparts, htext, hne, h5, h6]

/-- Witness for C1: a concrete environment whose model reports a non-US
address, applied to a concrete user request. -/
theorem c1_moderation_branches_witness :
    user_query_check_callback envNoUS ⟨"agent"⟩ (reqUser "hi") =
      (some nonUsLlmResponse,
       [CallEvent.llmGenerate (Ch06.addrCall "P" "R" "hi")]) := by
  have h := (c1_moderation_branches envNoUS ⟨"agent"⟩ (reqUser "hi")
      { role := some "user", parts := some [{ text := some "hi" }] }
      { text := some "hi" } [] "hi" rfl rfl rfl rfl (by decide)).1 rfl
  exact h

/-- C2: `chained_before_callback` runs the moderation check first; a
non-None moderation result is returned unchanged with no logging event
appended, otherwise the logging callback runs and None is returned.  The
trace equalities show there is no other branching. -/
theorem c2_chained_sequence (env : Env) (ctx : CallbackContext) (req : LlmRequest) :
    (∀ r, (user_query_check_callback env ctx req).1 = some r →
       chained_before_callback env ctx req =
         (some r, (user_query_check_callback env ctx req).2)) ∧
    ((user_query_check_callback env ctx req).1 = none →
       chained_before_callback env ctx req =
         (none, (user_query_check_callback env ctx req).2 ++
            (user_prompt_log_callback ctx req).2)) := by
  constructor
  · intro r h
    simp [chained_before_callback, h]
  · intro h
    simp [chained_before_callback, h]

/-- Witness for C2: with a failing moderation check the chained callback
returns the moderation response and produces no logging event. -/
theorem c2_chained_sequence_witness :
    chained_before_callback envNoUS ⟨"agent"⟩ (reqUser "hi") =
      (some nonUsLlmResponse,
       [CallEvent.llmGenerate (Ch06.addrCall "P" "R" "hi")]) :=
  (c2_chained_sequence envNoUS ⟨"agent"⟩ (reqUser "hi")).1 nonUsLlmResponse rfl

/-- C3 counterexample: when the geocoding response body is valid JSON but
not an object (here a JSON array), `data['status']` raises a `TypeError`
during response parsing that no `except` clause of
`get_lat_lon_from_address` catches: the exception propagates to the caller
instead of being logged and turned into the None sentinel. -/
theorem c3_exception_propagates_counterexample :
    (get_lat_lon_from_address envListGeo "700 Main St" "key").1 = .error .typeError ∧
    (get_lat_lon_from_address envListGeo "700 Main St" "key").1 ≠ .ok none := by
  constructor
  · rfl
  · rw [show (get_lat_lon_from_address envListGeo "700 Main St" "key").1
        = .error .typeError from rfl]
    simp

/-- C3 amended: every function catches `RequestException` network errors and
`KeyError`/`IndexError` parsing errors locally, logs them, and returns its
sentinel (None/False); the weather functions and the callbacks catch every
exception; but `get_lat_lon_from_address` can propagate a `TypeError` (and
only a `TypeError`) when the response body is not a JSON object. -/
theorem c3_amended_sentinels (env : Env) (hw : httpWellBehaved env)
    (address api_key project_id location user_query : String)
    (latitude longitude : JValue) (ctx : CallbackContext) (req : LlmRequest) :
    (∀ e, (get_lat_lon_from_address env address api_key).1 = .error e → e = .typeError) ∧
    (env.http (geocodeReq address api_key) = .raise .requestException →
       get_lat_lon_from_address env address api_key =
         (.ok none,
          [CallEvent.httpGet (geocodeReq address api_key),
           CallEvent.consolePrint
             ("An error occurred with the network request: " ++ PyErr.requestException.pyMsg)])) ∧
    (∃ v, (get_weather_forecast env latitude longitude).1 = .ok v) ∧
    (∃ v, (get_weather env address).1 = .ok v) ∧
    (∀ e, env.llm (Ch03.addrCall project_id location user_query) = .error e →
       (Ch03.is_address_in_us env project_id location user_query).1 = false) ∧
    (∀ e, env.llm (Ch03.meanCall project_id location user_query) = .error e →
       (Ch03.is_user_query_mean env project_id location user_query).1 = false) ∧
    (∀ e, env.llm (Ch06.addrCall project_id location user_query) = .error e →
       (Ch06.is_address_in_us env project_id location user_query).1 = false) ∧
    (∀ e, env.llm (Ch06.meanCall project_id location user_query) = .error e →
       (Ch06.is_user_query_mean env project_id location user_query).1 = false) ∧
    (req.contents = [] →
       user_query_check_callback env ctx req =
         (none, [CallEvent.logError ("Woops:\n" ++ PyErr.indexError.pyMsg)])) := by
  refine ⟨?_, ?_, forecast_total env latitude longitude, weather_total env address,
    ?_, ?_, ?_, ?_, ?_⟩
  · intro e h
    unfold get_lat_lon_from_address geoTryBody at h
    cases h2 : env.http (geocodeReq address api_key) with
    | raise e2 =>
      have h4 := hw _ _ h2
      subst h4
      simp only [h2] at h
      simp at h
    | ok data =>
      simp only [h2] at h
      rcases h3 : (geoExtract data).1 with e3 | v
      · rcases geoExtract_err data e3 h3 with h4 | h4 | h4 <;> subst h4 <;>
          simp only [h3] at h <;> simp_all
      · simp only [h3] at h
        simp at h
  · intro h
    simp [get_lat_lon_from_address, geoTryBody, h]
  · intro e h
    simp [Ch03.is_address_in_us, h]
  · intro e h
    simp [Ch03.is_user_query_mean, h]
  · intro e h
    simp [Ch06.is_address_in_us, h]
  · intro e h
    simp [Ch06.is_user_query_mean, h]
  · intro h
    simp [user_query_check_callback, h]

/-- Witness for C3 (amended): a concrete network failure is caught, logged
and turned into the None sentinel. -/
theorem c3_amended_sentinels_witness :
    get_lat_lon_from_address envNoUS "700 Main St" "key" =
      (.ok none,
       [CallEvent.httpGet (geocodeReq "700 Main St" "key"),
        CallEvent.consolePrint
          ("An error occurred with the network request: " ++ PyErr.requestException.pyMsg)]) :=
  ((c3_amended_sentinels envNoUS
      (fun r e h => by injection h with h2; exact h2.symm)
      "700 Main St" "key" "p" "l" "q" JValue.vnull JValue.vnull
      ⟨"agent"⟩ reqEmpty).2.1) rfl

/-- C4 counterexample: on a fully successful run, `get_weather` issues three
HTTP requests (geocoding, NWS points, NWS forecast), contradicting the claim
that every function performs at most two HTTP requests per invocation. -/
theorem c4_three_requests_counterexample :
    countHttp (get_weather envWeather "1600 Amphitheatre Parkway").2 = 3 ∧
    ¬ countHttp (get_weather envWeather "1600 Amphitheatre Parkway").2 ≤ 2 := by
  constructor
  · rfl
  · rw [show countHttp (get_weather envWeather "1600 Amphitheatre Parkway").2 = 3 from rfl]
    omega

/-- C4 amended: `get_lat_lon_from_address` issues exactly one HTTP request,
`get_weather_forecast` at most two, and `get_weather` (which composes them)
at most three; the model-check functions and the callbacks issue none. -/
theorem c4_amended_request_counts (env : Env)
    (address api_key project_id location user_query : String)
    (latitude longitude : JValue) (ctx : CallbackContext) (req : LlmRequest) :
    countHttp (get_lat_lon_from_address env address api_key).2 = 1 ∧
    countHttp (get_weather_forecast env latitude longitude).2 ≤ 2 ∧
    countHttp (get_weather env address).2 ≤ 3 ∧
    countHttp (Ch03.is_address_in_us env project_id location user_query).2 = 0 ∧
    countHttp (Ch03.is_user_query_mean env project_id location user_query).2 = 0 ∧
    countHttp (Ch06.is_address_in_us env project_id location user_query).2 = 0 ∧
    countHttp (Ch06.is_user_query_mean env project_id location user_query).2 = 0 ∧
    countHttp (user_prompt_log_callback ctx req).2 = 0 ∧
    countHttp (user_query_check_callback env ctx req).2 = 0 ∧
    countHttp (chained_before_callback env ctx req).2 = 0 :=
  ⟨(geo_trace_shape env address api_key).1,
   (forecast_trace_shape env latitude longitude).1,
   (weather_trace_shape env address).1,
   (trace03addr env project_id location user_query).1,
   (trace03mean env project_id location user_query).1,
   (trace06addr env project_id location user_query).1,
   (trace06mean env project_id location user_query).1,
   (trace_log ctx req).1,
   (trace_uqcc env ctx req).1,
   (trace_chained env ctx req).1⟩

/-- C5 counterexample: the generative-model call of `is_address_in_us` is
issued without any timeout argument, contradicting the claim that every
external call carries a fixed timeout. -/
theorem c5_no_llm_timeout_counterexample :
    (Ch06.is_address_in_us envYes "p" "l" "q").2 =
      [CallEvent.llmGenerate (Ch06.addrCall "p" "l" "q")] ∧
    (Ch06.addrCall "p" "l" "q").timeout = none :=
  ⟨rfl, rfl⟩

/-- C5 amended: every HTTP request carries the fixed 10-second timeout and
each call site fires at most the stated number of times per invocation
(geocoding exactly once, the two weather requests at most twice in total,
one model call per check function, at most two per callback); the
generative-model calls, however, are issued with no timeout argument
(`evTimeoutOk` checks `timeout = none` for them). -/
theorem c5_amended_call_discipline (env : Env)
    (address api_key project_id location user_query : String)
    (latitude longitude : JValue) (ctx : CallbackContext) (req : LlmRequest) :
    ((get_lat_lon_from_address env address api_key).2.all evTimeoutOk = true ∧
     countHttp (get_lat_lon_from_address env address api_key).2 = 1 ∧
     countLlm (get_lat_lon_from_address env address api_key).2 = 0) ∧
    ((get_weather_forecast env latitude longitude).2.all evTimeoutOk = true ∧
     countHttp (get_weather_forecast env latitude longitude).2 ≤ 2 ∧
     countLlm (get_weather_forecast env latitude longitude).2 = 0) ∧
    ((get_weather env address).2.all evTimeoutOk = true ∧
     countHttp (get_weather env address).2 ≤ 3 ∧
     countLlm (get_weather env address).2 = 0) ∧
    ((Ch03.is_address_in_us env project_id location user_query).2.all evTimeoutOk = true ∧
     countLlm (Ch03.is_address_in_us env project_id location user_query).2 = 1) ∧
    ((Ch03.is_user_query_mean env project_id location user_query).2.all evTimeoutOk = true ∧
     countLlm (Ch03.is_user_query_mean env project_id location user_query).2 = 1) ∧
    ((Ch06.is_address_in_us env project_id location user_query).2.all evTimeoutOk = true ∧
     countLlm (Ch06.is_address_in_us env project_id location user_query).2 = 1) ∧
    ((Ch06.is_user_query_mean env project_id location user_query).2.all evTimeoutOk = true ∧
     countLlm (Ch06.is_user_query_mean env project_id location user_query).2 = 1) ∧
    ((user_query_check_callback env ctx req).2.all evTimeoutOk = true ∧
     countLlm (user_query_check_callback env ctx req).2 ≤ 2) ∧
    ((chained_before_callback env ctx req).2.all evTimeoutOk = true ∧
     countLlm (chained_before_callback env ctx req).2 ≤ 2) :=
  ⟨⟨(geo_trace_shape env address api_key).2.2, (geo_trace_shape env address api_key).1,
    (geo_trace_shape env address api_key).2.1⟩,
   ⟨(forecast_trace_shape env latitude longitude).2.2,
    (forecast_trace_shape env latitude longitude).1,
    (forecast_trace_shape env latitude longitude).2.1⟩,
   ⟨(weather_trace_shape env address).2.2, (weather_trace_shape env address).1,
    (weather_trace_shape env address).2.1⟩,
   ⟨(trace03addr env project_id location user_query).2.2,
    (trace03addr env project_id location user_query).2.1⟩,
   ⟨(trace03mean env project_id location user_query).2.2,
    (trace03mean env project_id location user_query).2.1⟩,
   ⟨(trace06addr env project_id location user_query).2.2,
    (trace06addr env project_id location user_query).2.1⟩,
   ⟨(trace06mean env project_id location user_query).2.2,
    (trace06mean env project_id location user_query).2.1⟩,
   ⟨(trace_uqcc env ctx req).2.2, (trace_uqcc env ctx req).2.1⟩,
   ⟨(trace_chained env ctx req).2.2, (trace_chained env ctx req).2.1⟩⟩

/-- C6 counterexample: when the geocoding endpoint answers with a JSON
string body, `get_lat_lon_from_address` neither returns the pair nor None:
it raises a `TypeError` (the claim says None is returned in every non-OK
case, including malformed responses). -/
theorem c6_geocode_counterexample :
    (get_lat_lon_from_address envStrGeo "1 Infinite Loop" "key").1 = .error .typeError ∧
    (get_lat_lon_from_address envStrGeo "1 Infinite Loop" "key").1 ≠ .ok none := by
  constructor
  · rfl
  · rw [show (get_lat_lon_from_address envStrGeo "1 Infinite Loop" "key").1
        = .error .typeError from rfl]
    simp

/-- C6 amended: `get_lat_lon_from_address` returns the `(lat, lng)` pair of
the first result exactly as the spec-side extractor `specGeoResult` reads
it whenever extraction raises no `TypeError` (so None on network errors,
non-OK status, and malformations that raise `KeyError` or `IndexError`,
such as missing keys, an empty results list, or a dict-valued `results`
subscripted with 0); only when the response body is not a JSON object, or a
subscripted nested value is of a type Python cannot subscript that way,
does the resulting `TypeError` propagate instead of None being returned. -/
theorem c6_amended_geocode_result (env : Env) (address api_key : String) :
    (env.http (geocodeReq address api_key) = .raise .requestException →
       (get_lat_lon_from_address env address api_key).1 = .ok none) ∧
    (∀ body, env.http (geocodeReq address api_key) = .ok body →
       (geoExtract body).1 ≠ .error .typeError →
       (get_lat_lon_from_address env address api_key).1 = .ok (specGeoResult body)) ∧
    (∀ body, env.http (geocodeReq address api_key) = .ok body →
       (geoExtract body).1 = .error .typeError →
       (get_lat_lon_from_address env address api_key).1 = .error .typeError) := by
  refine ⟨fun h => ?_, fun body h hT => ?_, fun body h hT => ?_⟩
  · simp [get_lat_lon_from_address, geoTryBody, h]
  · unfold get_lat_lon_from_address geoTryBody
    simp only [h]
    rcases geoExtract_cases body with h1 | ⟨h1 | h1, h2⟩ | h1
    · simp [h1]
    · simp [h1, h2]
    · simp [h1, h2]
    · exact absurd h1 hT
  · unfold get_lat_lon_from_address geoTryBody
    simp only [h, hT]

/-- Witness for C6 (amended): on a successful well-formed response the
function returns exactly the pair the spec-side extractor reads. -/
theorem c6_amended_geocode_result_witness :
    (get_lat_lon_from_address envWeather "1600 Amphitheatre Parkway" "key").1 =
      .ok (specGeoResult goodGeoBody) := by
  refine ((c6_amended_geocode_result envWeather "1600 Amphitheatre Parkway" "key").2.1)
    goodGeoBody rfl ?_
  rw [show (geoExtract goodGeoBody).1
      = .ok (some (JValue.vnum 38, JValue.vnum (-77))) from rfl]
  simp

/-- C7: each of the four model-check functions returns True exactly when the
model call succeeds and the reply text, stripped of surrounding whitespace
and lowercased, equals "yes"; in every other case (other reply, or any
exception during the call) it returns False. -/
theorem c7_yes_iff (env : Env) (project_id location user_query : String) :
    ((Ch03.is_address_in_us env project_id location user_query).1 = true ↔
       ∃ t, env.llm (Ch03.addrCall project_id location user_query) = .ok t ∧
         pyLower (pyStrip t) = "yes") ∧
    ((Ch03.is_user_query_mean env project_id location user_query).1 = true ↔
       ∃ t, env.llm (Ch03.meanCall project_id location user_query) = .ok t ∧
         pyLower (pyStrip t) = "yes") ∧
    ((Ch06.is_address_in_us env project_id location user_query).1 = true ↔
       ∃ t, env.llm (Ch06.addrCall project_id location user_query) = .ok t ∧
         pyLower (pyStrip t) = "yes") ∧
    ((Ch06.is_user_query_mean env project_id location user_query).1 = true ↔
       ∃ t, env.llm (Ch06.meanCall project_id location user_query) = .ok t ∧
         pyLower (pyStrip t) = "yes") := by
  refine ⟨?_, ?_, ?_, ?_⟩
  · unfold Ch03.is_address_in_us
    cases h : env.llm (Ch03.addrCall project_id location user_query) <;> simp [h]
  · unfold Ch03.is_user_query_mean
    cases h : env.llm (Ch03.meanCall project_id location user_query) <;> simp [h]
  · unfold Ch06.is_address_in_us
    cases h : env.llm (Ch06.addrCall project_id location user_query) <;> simp [h]
  · unfold Ch06.is_user_query_mean
    cases h : env.llm (Ch06.meanCall project_id location user_query) <;> simp [h]

/-- C8: a request with empty contents, a non-user last element, empty or
missing parts, or empty or missing first-part text passes through
`user_query_check_callback` unmoderated: the result is None and no
generative-model call is issued (for empty contents the internal IndexError
is caught and logged). -/
theorem c8_unmoderated_passthrough (env : Env) (ctx : CallbackContext) (req : LlmRequest) :
    (req.contents = [] →
       (user_query_check_callback env ctx req).1 = none ∧
       countLlm (user_query_check_callback env ctx req).2 = 0) ∧
    (∀ last, req.contents.getLast? = some last → last.role ≠ some "user" →
       user_query_check_callback env ctx req = (none, [])) ∧
    (∀ last, req.contents.getLast? = some last →
       (last.parts = none ∨ last.parts = some []) →
       user_query_check_callback env ctx req = (none, [])) ∧
    (∀ last p rest, req.contents.getLast? = some last →
       last.parts = some (p :: rest) →
       (p.text = none ∨ p.text = some "") →
       user_query_check_callback env ctx req = (none, [])) := by
  refine ⟨fun h => ?_, fun last h1 h2 => ?_, fun last h1 h2 => ?_,
    fun last p rest h1 h2 h3 => ?_⟩
  · simp [user_query_check_callback, h, countLlm]
  · by_cases hr : last.role = some "user"
    · exact absurd hr h2
    · simp [user_query_check_callback, h1, hr]
  · by_cases hr : last.role = some "user" <;>
      rcases h2 with h2 | h2 <;>
      simp [user_query_check_callback, h1, h2, hr]
  · by_cases hr : last.role = some "user" <;>
      rcases h3 with h3 | h3 <;>
      simp [user_query_check_callback, h1, h2, h3, hr]

/-- Witness for C8: an empty request and a request whose last element is a
model message both pass through unmoderated. -/
theorem c8_unmoderated_passthrough_witness :
    (user_query_check_callback envYes ⟨"agent"⟩ reqEmpty).1 = none ∧
    countLlm (user_query_check_callback envYes ⟨"agent"⟩ reqEmpty).2 = 0 ∧
    user_query_check_callback envYes ⟨"agent"⟩ reqModelLast = (none, []) := by
  have h1 := (c8_unmoderated_passthrough envYes ⟨"agent"⟩ reqEmpty).1 rfl
  have h2 := (c8_unmoderated_passthrough envYes ⟨"agent"⟩ reqModelLast).2.1
    { role := some "model", parts := some [{ text := some "hello" }] }
    rfl (by decide)
  exact ⟨h1.1, h1.2, h2⟩

/-- C9: `get_weather_forecast` returns None without any error occurring:
when the points response succeeds but holds no (truthy) forecast URL it
returns None after a single request, and when both requests succeed but the
forecast response holds no `properties.periods` value it returns None after
both requests; so a None result does not imply a network or parsing error. -/
theorem c9_none_without_error (env : Env) (latitude longitude : JValue) :
    (∀ body u, env.http (pointsReq latitude longitude) = .ok body →
       getForecastUrl body = .ok u → u.truthy = false →
       get_weather_forecast env latitude longitude =
         (.ok JValue.vnull,
          [CallEvent.httpGet (pointsReq latitude longitude),
           CallEvent.consolePrint "Error: Could not find forecast URL in the API response."])) ∧
    (∀ body u fbody, env.http (pointsReq latitude longitude) = .ok body →
       getForecastUrl body = .ok u → u.truthy = true →
       env.http (forecastReq u) = .ok fbody →
       getPeriods fbody = .ok JValue.vnull →
       get_weather_forecast env latitude longitude =
         (.ok JValue.vnull,
          [CallEvent.httpGet (pointsReq latitude longitude),
           CallEvent.httpGet (forecastReq u)])) := by
  constructor
  · intro body u h1 h2 h3
    unfold get_weather_forecast forecastTryBody
    simp [h1, h2, h3]
  · intro body u fbody h1 h2 h3 h4 h5
    unfold get_weather_forecast forecastTryBody
    simp [h1, h2, h3, h4, h5]

/-- Witness for C9: a points response with an empty JSON object yields None
after one request. -/
theorem c9_none_without_error_witness :
    get_weather_forecast envZeroResults (JValue.vnum 1) (JValue.vnum 2) =
      (.ok JValue.vnull,
       [CallEvent.httpGet (pointsReq (JValue.vnum 1) (JValue.vnum 2)),
        CallEvent.consolePrint "Error: Could not find forecast URL in the API response."]) :=
  (c9_none_without_error envZeroResults (JValue.vnum 1) (JValue.vnum 2)).1
    (JValue.vobj []) JValue.vnull rfl rfl rfl

/-- C10: when geocoding yields None, `get_weather` returns None and never
calls `get_weather_forecast`: unpacking None raises a `TypeError`
(`unpack2 none`), the broad except catches it, and the trace stays at the
single geocoding request. -/
theorem c10_geo_none_short_circuits (env : Env) (address : String)
    (h : (get_lat_lon_from_address env address env.google_map_key).1 = .ok none) :
    get_weather env address =
      (.ok JValue.vnull,
       (get_lat_lon_from_address env address env.google_map_key).2 ++
         [CallEvent.consolePrint
           ("Something broke. Good luck fixing:\n" ++ PyErr.typeError.pyMsg)]) ∧
    unpack2 (none : Option (JValue × JValue)) = .error .typeError ∧
    countHttp (get_weather env address).2 = 1 ∧
    countLlm (get_weather env address).2 = 0 := by
  have h1 : get_weather env address =
      (.ok JValue.vnull,
       (get_lat_lon_from_address env address env.google_map_key).2 ++
         [CallEvent.consolePrint
           ("Something broke. Good luck fixing:\n" ++ PyErr.typeError.pyMsg)]) := by
    unfold get_weather
    simp [h, unpack2]
  refine ⟨h1, rfl, ?_, ?_⟩
  · rw [h1]
    simp [countHttp_append, countHttp,
      (geo_trace_shape env address env.google_map_key).1]
  · rw [h1]
    simp [countLlm_append, countLlm,
      (geo_trace_shape env address env.google_map_key).2.1]

/-- Witness for C10: a ZERO_RESULTS geocoding status makes `get_weather`
return None after the single geocoding request. -/
theorem c10_geo_none_short_circuits_witness :
    get_weather envZeroResults "1600 Amphitheatre Parkway" =
      (.ok JValue.vnull,
       [CallEvent.httpGet (geocodeReq "1600 Amphitheatre Parkway" "K"),
        CallEvent.consolePrint "Geocoding API Error: ZERO_RESULTS - ",
        CallEvent.consolePrint
          ("Something broke. Good luck fixing:\n" ++ PyErr.typeError.pyMsg)]) := by
  have h := (c10_geo_none_short_circuits envZeroResults "1600 Amphitheatre Parkway" rfl).1
  exact h
